import Mathlib

/-!
# The `zmq_ctx_new` MEX binding

A shallow embedding of `src/zmq_ctx_new.cc`: the single entry point `mexFunction`,
which checks the argument count, asks the messaging library for a context, checks
the address for `NULL`, creates a 1x1 unsigned integer matrix of pointer width and
stores the address in its data buffer.

The host runtime (`mex.h`) and the messaging library (`zmq.h`) are not part of the
repository.  Their entry points used by the binding are modelled here at the level
the binding observes them: memory is a list of bytes, an address is a natural
number, the library is an arbitrary state transformer handed in as a parameter.
-/

namespace ZmqCtxNew

/-! ## Build target -/

/-- The platform the binding is compiled for: `sizeof(void*)` in bytes and the byte
order of scalar objects. -/
structure Target where
  sizeofPtr : Nat
  bigEndian : Bool
  deriving DecidableEq, Repr

/-- The targets the source distinguishes ("Are we on a 32 or 64 bit machine?"). -/
def Target.supported (t : Target) : Prop := t.sizeofPtr = 4 ∨ t.sizeofPtr = 8

instance (t : Target) : Decidable t.supported := by
  unfold Target.supported; exact inferInstance

/-- The null pointer constant. -/
def NULL : Nat := 0

/-! ## Bytes -/

/-- The `k` low-order bytes of `v`, least significant first. -/
def toBytesLE : Nat → Nat → List Nat
  | 0, _ => []
  | k + 1, v => v % 256 :: toBytesLE k (v / 256)

/-- The number whose little-endian bytes are `bs`. -/
def fromBytesLE : List Nat → Nat
  | [] => 0
  | b :: bs => b + 256 * fromBytesLE bs

/-- Object representation of a `k`-byte unsigned scalar on target `t`. -/
def encodeScalar (t : Target) (k v : Nat) : List Nat :=
  if t.bigEndian then (toBytesLE k v).reverse else toBytesLE k v

/-- Value of the unsigned scalar whose object representation on target `t` is `bs`. -/
def decodeScalar (t : Target) (bs : List Nat) : Nat :=
  if t.bigEndian then fromBytesLE bs.reverse else fromBytesLE bs

/-- Object representation of a `void*` holding address `p`: `sizeof(void*)` bytes. -/
def ptrBytes (t : Target) (p : Nat) : List Nat := encodeScalar t t.sizeofPtr p

/-- Overwrite `bytes.length` bytes of `buf` starting at byte offset `off`; `none` when
the write would leave the buffer. -/
def storeBytes (buf : List Nat) (off : Nat) (bytes : List Nat) : Option (List Nat) :=
  if off + bytes.length ≤ buf.length then
    some (buf.take off ++ bytes ++ buf.drop (off + bytes.length))
  else
    none

/-- Read `n` bytes of `buf` starting at byte offset `off`. -/
def loadBytes (buf : List Nat) (off n : Nat) : List Nat := (buf.drop off).take n

/-! ## Host runtime values (`mex.h`) -/

/-- Modelled from the spec: the numeric classes of `mxClassID` in `mex.h`; the binding
uses the two unsigned classes of 32 and 64 bits. -/
inductive mxClassID where
  | mxDOUBLE_CLASS | mxSINGLE_CLASS
  | mxINT8_CLASS | mxUINT8_CLASS
  | mxINT16_CLASS | mxUINT16_CLASS
  | mxINT32_CLASS | mxUINT32_CLASS
  | mxINT64_CLASS | mxUINT64_CLASS
  deriving DecidableEq, Repr

/-- Modelled from the spec: `mxComplexity` of `mex.h`. -/
inductive mxComplexity where
  | mxREAL | mxCOMPLEX
  deriving DecidableEq, Repr

open mxClassID mxComplexity

/-- Bytes per element of a numeric class. -/
def mxClassID.elementSize : mxClassID → Nat
  | mxDOUBLE_CLASS => 8
  | mxSINGLE_CLASS => 4
  | mxINT8_CLASS => 1
  | mxUINT8_CLASS => 1
  | mxINT16_CLASS => 2
  | mxUINT16_CLASS => 2
  | mxINT32_CLASS => 4
  | mxUINT32_CLASS => 4
  | mxINT64_CLASS => 8
  | mxUINT64_CLASS => 8

/-- The unsigned integer classes. -/
def mxClassID.isUnsignedInteger : mxClassID → Bool
  | mxUINT8_CLASS => true
  | mxUINT16_CLASS => true
  | mxUINT32_CLASS => true
  | mxUINT64_CLASS => true
  | _ => false

/-- A numeric array of the host: dimensions, class, complexity and the bytes of its
real data buffer. -/
structure mxArray where
  m : Nat
  n : Nat
  classid : mxClassID
  flag : mxComplexity
  data : List Nat
  deriving DecidableEq, Repr

/-- Modelled from the spec: `mxCreateNumericMatrix(m, n, classid, flag)` of `mex.h`
creates the output representation, an `m`-by-`n` numeric array of the class; as the host
documents it, every element starts at zero.  Exhaustion of host memory is not modelled. -/
def mxCreateNumericMatrix (m n : Nat) (classid : mxClassID) (flag : mxComplexity) : mxArray :=
  { m := m, n := n, classid := classid, flag := flag,
    data := List.replicate (m * n * classid.elementSize) 0 }

/-- Number of elements of an array. -/
def mxArray.numel (a : mxArray) : Nat := a.m * a.n

/-- The array is a 1x1 scalar. -/
def mxArray.isScalar (a : mxArray) : Bool := a.m == 1 && a.n == 1

/-- The number the host reads in element `i` of an unsigned integer array. -/
def mxArray.uintAt (t : Target) (a : mxArray) (i : Nat) : Nat :=
  decodeScalar t (loadBytes a.data (i * a.classid.elementSize) a.classid.elementSize)

/-- The address obtained by reading element `i` of the data buffer as a `void*`. -/
def mxArray.voidPtrAt (t : Target) (a : mxArray) (i : Nat) : Nat :=
  decodeScalar t (loadBytes a.data (i * t.sizeofPtr) t.sizeofPtr)

/-! ## The messaging library (`zmq.h`) -/

/-- The primitives of the messaging library that concern contexts. -/
inductive LibCall where
  | zmq_ctx_new
  | zmq_ctx_term (context : Nat)
  deriving DecidableEq, Repr

/-- The messaging library as the binding sees it: a state of type `σ` and the context
allocation primitive, which returns an address (`NULL` on failure) and the next state. -/
structure LibZmq (σ : Type) where
  ctxNew : σ → Nat × σ

/-! ## The state of one call -/

/-- What a call of the binding can touch: the state of the messaging library, the log
of library primitives invoked so far, and the output slots `plhs`. -/
structure Frame (σ : Type) where
  lib : σ
  calls : List LibCall
  plhs : Nat → Option mxArray

/-- How a computation inside the MEX function ends: it goes on with a value, it is
aborted by an error raised to the host, or it accesses memory it must not. -/
inductive Result (σ α : Type) where
  | ok (a : α) (s : Frame σ)
  | raised (id msg : String) (s : Frame σ)
  | fault

/-- Computations of the MEX function. -/
def Mex (σ α : Type) : Type := Frame σ → Result σ α

/-- Sequencing: an error or a fault ends the computation. -/
def Mex.bind {σ α β : Type} (x : Mex σ α) (f : α → Mex σ β) : Mex σ β := fun s =>
  match x s with
  | Result.ok a s1 => f a s1
  | Result.raised id msg s1 => Result.raised id msg s1
  | Result.fault => Result.fault

instance (σ : Type) : Monad (Mex σ) where
  pure a := fun s => Result.ok a s
  bind := Mex.bind

/-- Modelled from the spec: `mexErrMsgIdAndTxt(id, msg)` of `mex.h` raises the error to
the host and does not return to the MEX function. -/
def mexErrMsgIdAndTxt {σ α : Type} (id msg : String) : Mex σ α :=
  fun s => Result.raised id msg s

/-- The call `zmq_ctx_new()`: the library runs its allocation primitive once. -/
def zmq_ctx_new {σ : Type} (lib : LibZmq σ) : Mex σ Nat := fun s =>
  Result.ok (lib.ctxNew s.lib).1
    { s with lib := (lib.ctxNew s.lib).2, calls := s.calls ++ [LibCall.zmq_ctx_new] }

/-- The assignment `plhs[i] = a`. -/
def assignPlhs {σ : Type} (i : Nat) (a : mxArray) : Mex σ Unit := fun s =>
  Result.ok () { s with plhs := Function.update s.plhs i (some a) }

/-- A pointer to the data buffer of the array held in an output slot. -/
structure DataPtr where
  slot : Nat
  deriving DecidableEq, Repr

/-- The call `mxGetData(plhs[i])`; a null array has no data to point to. -/
def mxGetData {σ : Type} (i : Nat) : Mex σ DataPtr := fun s =>
  match s.plhs i with
  | some _ => Result.ok { slot := i } s
  | none => Result.fault

/-- The assignment `dst[i] = v` through a `void **`: the `sizeof(void*)` bytes of the
address are written at byte offset `i * sizeof(void*)`, unchanged. -/
def storeVoidPtr {σ : Type} (t : Target) (dst : DataPtr) (i v : Nat) : Mex σ Unit := fun s =>
  match s.plhs dst.slot with
  | none => Result.fault
  | some a =>
    match storeBytes a.data (i * t.sizeofPtr) (ptrBytes t v) with
    | none => Result.fault
    | some d =>
      Result.ok () { s with plhs := Function.update s.plhs dst.slot (some { a with data := d }) }

/-- Identifier of the usage error. -/
def invalidArgsId : String := "zmq:ctx_new:invalidArgs"

/-- Message of the usage error. -/
def invalidArgsMsg : String := "Error: No arguments are accepted by this function."

/-- Identifier of the allocation failure. -/
def contextInitFailId : String := "zmq:ctx_new:contextInitFail"

/-- Message of the allocation failure. -/
def contextInitFailMsg : String := "Error: ZMQ context instantiation failed."

/-- The entry point of `zmq_ctx_new.cc`, statement by statement.  The output slots
`plhs` live in the frame; `nlhs` and `prhs` are received and, as in the source, never
read; `sizeof(void*)` is the pointer size of the target. -/
def mexFunction {σ : Type} (t : Target) (lib : LibZmq σ)
    (nlhs : Int) (nrhs : Int) (prhs : List mxArray) : Mex σ Unit := do
  if nrhs ≠ 0 then
    mexErrMsgIdAndTxt invalidArgsId invalidArgsMsg
  let context ← zmq_ctx_new lib
  if context = NULL then
    mexErrMsgIdAndTxt contextInitFailId contextInitFailMsg
  if t.sizeofPtr = 4 then
    assignPlhs 0 (mxCreateNumericMatrix 1 1 mxUINT32_CLASS mxREAL)
  else
    assignPlhs 0 (mxCreateNumericMatrix 1 1 mxUINT64_CLASS mxREAL)
  let mexReturn ← mxGetData 0
  storeVoidPtr t mexReturn 0 context

/-- The frame after the library has run its allocation primitive once. -/
def Frame.afterCtxNew {σ : Type} (lib : LibZmq σ) (s : Frame σ) : Frame σ :=
  { s with lib := (lib.ctxNew s.lib).2, calls := s.calls ++ [LibCall.zmq_ctx_new] }

/-- The class of the output the source selects for the target. -/
def handleClass (t : Target) : mxClassID :=
  if t.sizeofPtr = 4 then mxUINT32_CLASS else mxUINT64_CLASS

/-- The array that encodes address `p` on target `t`. -/
def handleArray (t : Target) (p : Nat) : mxArray :=
  { m := 1, n := 1, classid := handleClass t, flag := mxREAL, data := ptrBytes t p }

/-- The frame a successful call leaves: the allocation primitive has run once and
`plhs[0]` holds the array that encodes the address it returned. -/
def Frame.afterSuccess {σ : Type} (t : Target) (lib : LibZmq σ) (s : Frame σ) : Frame σ :=
  { s.afterCtxNew lib with
    plhs := Function.update s.plhs 0 (some (handleArray t (lib.ctxNew s.lib).1)) }

/-- What the host observes of a finished call: the error raised, or the value left in
`plhs[0]` on return. -/
inductive Outcome where
  | error (id msg : String)
  | output (plhs0 : Option mxArray)
  | crash
  deriving DecidableEq, Repr

/-- The observation of a result. -/
def Result.outcome {σ : Type} : Result σ Unit → Outcome
  | Result.ok _ s => Outcome.output (s.plhs 0)
  | Result.raised id msg _ => Outcome.error id msg
  | Result.fault => Outcome.crash

/-- The frame in which a result leaves the library and the log, when there is one. -/
def Result.finalFrame {σ α : Type} : Result σ α → Option (Frame σ)
  | Result.ok _ s => some s
  | Result.raised _ _ s => some s
  | Result.fault => none

/-- The frame the next call starts in: the library and the log go on, the host hands in
new output slots. -/
def Frame.nextCall {σ : Type} (s : Frame σ) (plhs : Nat → Option mxArray) : Frame σ :=
  { s with plhs := plhs }

/-! ## Concrete inputs -/

/-- A 64-bit little-endian build. -/
def target64 : Target := { sizeofPtr := 8, bigEndian := false }

/-- A 32-bit big-endian build. -/
def target32 : Target := { sizeofPtr := 4, bigEndian := true }

/-- A library that hands out page-aligned addresses one after the other; its state is
the number of contexts created so far. -/
def pageLib : LibZmq Nat := { ctxNew := fun k => (4096 * (k + 1), k + 1) }

/-- A library that cannot allocate. -/
def failingLib : LibZmq Nat := { ctxNew := fun k => (NULL, k) }

/-- The frame the host hands to a call: no output assigned yet. -/
def freshFrame : Frame Nat := { lib := 0, calls := [], plhs := fun _ => none }

/-- A double scalar `0.0`, as an input argument. -/
def someArg : mxArray := mxCreateNumericMatrix 1 1 mxDOUBLE_CLASS mxREAL

/-- A library whose state is the list of addresses it has returned, and which returns the
address `4096` on every call. -/
def otherLib : LibZmq (List Nat) := { ctxNew := fun l => (4096, 4096 :: l) }

/-- The frame the host hands to a first call into `otherLib`. -/
def otherFrame : Frame (List Nat) := { lib := [], calls := [], plhs := fun _ => none }

/-! ## Bytes: lemmas -/

theorem toBytesLE_length (k v : Nat) : (toBytesLE k v).length = k := by
  induction k generalizing v with
  | zero => rfl
  | succ k ih => simp [toBytesLE, ih]

theorem fromBytesLE_toBytesLE (k v : Nat) : fromBytesLE (toBytesLE k v) = v % 256 ^ k := by
  induction k generalizing v with
  | zero => simp [toBytesLE, fromBytesLE, Nat.mod_one]
  | succ k ih =>
    simp only [toBytesLE, fromBytesLE, ih]
    rw [pow_succ, Nat.mul_comm (256 ^ k) 256, Nat.mod_mul]

theorem encodeScalar_length (t : Target) (k v : Nat) : (encodeScalar t k v).length = k := by
  unfold encodeScalar
  split <;> simp [toBytesLE_length]

theorem decodeScalar_encodeScalar (t : Target) (k v : Nat) :
    decodeScalar t (encodeScalar t k v) = v % 256 ^ k := by
  unfold decodeScalar encodeScalar
  split <;> simp [fromBytesLE_toBytesLE]

theorem ptrBytes_length (t : Target) (p : Nat) : (ptrBytes t p).length = t.sizeofPtr :=
  encodeScalar_length t t.sizeofPtr p

theorem decodeScalar_ptrBytes (t : Target) (p : Nat) (hp : p < 256 ^ t.sizeofPtr) :
    decodeScalar t (ptrBytes t p) = p := by
  unfold ptrBytes
  rw [decodeScalar_encodeScalar, Nat.mod_eq_of_lt hp]

theorem storeBytes_whole (buf bytes : List Nat) (h : bytes.length = buf.length) :
    storeBytes buf 0 bytes = some bytes := by
  simp [storeBytes, h]

theorem loadBytes_whole (buf : List Nat) (n : Nat) (h : buf.length = n) :
    loadBytes buf 0 n = buf := by
  subst h
  simp [loadBytes]

theorem handleClass_elementSize (t : Target) (ht : t.supported) :
    (handleClass t).elementSize = t.sizeofPtr := by
  unfold handleClass
  rcases ht with h | h <;> simp [h, mxClassID.elementSize]

/-! ## The three paths of `mexFunction` -/

theorem mexFunction_invalidArgs {σ : Type} (t : Target) (lib : LibZmq σ) (nlhs nrhs : Int)
    (prhs : List mxArray) (s : Frame σ) (h : nrhs ≠ 0) :
    mexFunction t lib nlhs nrhs prhs s = Result.raised invalidArgsId invalidArgsMsg s := by
  simp [mexFunction, bind, Mex.bind, mexErrMsgIdAndTxt, h]

theorem mexFunction_contextInitFail {σ : Type} (t : Target) (lib : LibZmq σ) (nlhs : Int)
    (prhs : List mxArray) (s : Frame σ) (h : (lib.ctxNew s.lib).1 = NULL) :
    mexFunction t lib nlhs 0 prhs s
      = Result.raised contextInitFailId contextInitFailMsg (s.afterCtxNew lib) := by
  simp [mexFunction, bind, Mex.bind, mexErrMsgIdAndTxt, zmq_ctx_new, h, pure,
    Frame.afterCtxNew]

theorem mexFunction_success {σ : Type} (t : Target) (lib : LibZmq σ) (nlhs : Int)
    (prhs : List mxArray) (s : Frame σ) (ht : t.supported)
    (h : (lib.ctxNew s.lib).1 ≠ NULL) :
    mexFunction t lib nlhs 0 prhs s = Result.ok () (s.afterSuccess t lib) := by
  rcases ht with h4 | h8
  · simp [mexFunction, bind, Mex.bind, mexErrMsgIdAndTxt, zmq_ctx_new, h, pure,
      Frame.afterCtxNew, assignPlhs, mxGetData, storeVoidPtr, h4, mxCreateNumericMatrix,
      mxClassID.elementSize, storeBytes, ptrBytes_length, handleArray, handleClass,
      Frame.afterSuccess]
  · simp [mexFunction, bind, Mex.bind, mexErrMsgIdAndTxt, zmq_ctx_new, h, pure,
      Frame.afterCtxNew, assignPlhs, mxGetData, storeVoidPtr, h8, mxCreateNumericMatrix,
      mxClassID.elementSize, storeBytes, ptrBytes_length, handleArray, handleClass,
      Frame.afterSuccess]

theorem mexFunction_ok_inv {σ : Type} (t : Target) (lib : LibZmq σ) (nlhs nrhs : Int)
    (prhs : List mxArray) (s s1 : Frame σ) (ht : t.supported)
    (h : mexFunction t lib nlhs nrhs prhs s = Result.ok () s1) :
    nrhs = 0 ∧ (lib.ctxNew s.lib).1 ≠ NULL ∧ s1 = s.afterSuccess t lib := by
  by_cases h0 : nrhs = 0
  · subst h0
    by_cases hp : (lib.ctxNew s.lib).1 = NULL
    · rw [mexFunction_contextInitFail t lib nlhs prhs s hp] at h
      exact absurd h (by simp)
    · rw [mexFunction_success t lib nlhs prhs s ht hp] at h
      injection h with _ h2
      exact ⟨rfl, hp, h2.symm⟩
  · rw [mexFunction_invalidArgs t lib nlhs nrhs prhs s h0] at h
    exact absurd h (by simp)

theorem handleArray_uintAt (t : Target) (p : Nat) (ht : t.supported)
    (hp : p < 256 ^ t.sizeofPtr) : (handleArray t p).uintAt t 0 = p := by
  unfold mxArray.uintAt
  simp only [handleArray, handleClass_elementSize t ht, Nat.zero_mul]
  rw [loadBytes_whole _ _ (ptrBytes_length t p), decodeScalar_ptrBytes t p hp]

theorem handleArray_voidPtrAt (t : Target) (p : Nat) (hp : p < 256 ^ t.sizeofPtr) :
    (handleArray t p).voidPtrAt t 0 = p := by
  unfold mxArray.voidPtrAt
  simp only [handleArray, Nat.zero_mul]
  rw [loadBytes_whole _ _ (ptrBytes_length t p), decodeScalar_ptrBytes t p hp]

theorem handleClass_isUnsignedInteger (t : Target) :
    (handleClass t).isUnsignedInteger = true := by
  unfold handleClass
  split <;> rfl

/-! ## Claims -/

/-- C1: every call with `nrhs ≥ 1`, whatever the arguments, `nlhs`, the target and the
state of the library, raises the usage error `zmq:ctx_new:invalidArgs`; the frame is
the one the call started with, so no output slot is assigned (and `plhs[0]` in
particular keeps its value). -/
theorem C1_arguments_raise_usage_error {σ : Type} (t : Target) (lib : LibZmq σ)
    (nlhs nrhs : Int) (prhs : List mxArray) (s : Frame σ) (h : 1 ≤ nrhs) :
    ∃ s1, mexFunction t lib nlhs nrhs prhs s
        = Result.raised "zmq:ctx_new:invalidArgs"
            "Error: No arguments are accepted by this function." s1
      ∧ s1.plhs = s.plhs ∧ s1.plhs 0 = s.plhs 0 :=
  ⟨s, mexFunction_invalidArgs t lib nlhs nrhs prhs s (by omega), rfl, rfl⟩

theorem C1_arguments_raise_usage_error_witness :
    (1 : Int) ≤ 2 ∧
    ∃ s1, mexFunction target64 pageLib 1 2 [someArg, someArg] freshFrame
        = Result.raised "zmq:ctx_new:invalidArgs"
            "Error: No arguments are accepted by this function." s1
      ∧ s1.plhs = freshFrame.plhs ∧ s1.plhs 0 = freshFrame.plhs 0 :=
  ⟨by decide,
   C1_arguments_raise_usage_error target64 pageLib 1 2 [someArg, someArg] freshFrame
     (by decide)⟩

/-- C2: every call with `nrhs = 0` in which the allocation primitive returns `NULL`
raises the allocation failure `zmq:ctx_new:contextInitFail`; no output array is
created and no output slot is assigned. -/
theorem C2_null_context_raises_init_failure {σ : Type} (t : Target) (lib : LibZmq σ)
    (nlhs nrhs : Int) (prhs : List mxArray) (s : Frame σ) (h0 : nrhs = 0)
    (hnull : (lib.ctxNew s.lib).1 = NULL) :
    ∃ s1, mexFunction t lib nlhs nrhs prhs s
        = Result.raised "zmq:ctx_new:contextInitFail"
            "Error: ZMQ context instantiation failed." s1
      ∧ s1.plhs = s.plhs ∧ s1.plhs 0 = s.plhs 0 := by
  subst h0
  exact ⟨s.afterCtxNew lib, mexFunction_contextInitFail t lib nlhs prhs s hnull, rfl, rfl⟩

theorem C2_null_context_raises_init_failure_witness :
    (0 : Int) = 0 ∧ (failingLib.ctxNew freshFrame.lib).1 = NULL ∧
    ∃ s1, mexFunction target64 failingLib 1 0 [] freshFrame
        = Result.raised "zmq:ctx_new:contextInitFail"
            "Error: ZMQ context instantiation failed." s1
      ∧ s1.plhs = freshFrame.plhs ∧ s1.plhs 0 = freshFrame.plhs 0 :=
  ⟨rfl, rfl,
   C2_null_context_raises_init_failure target64 failingLib 1 0 [] freshFrame rfl rfl⟩

/-- C3: on a 32-bit or 64-bit target, every call with `nrhs = 0` in which the
allocation primitive returns a non-null address (an address of pointer width) raises
no error and returns with exactly one output assigned, `plhs[0]`: a real 1x1 array of
an unsigned integer class whose value is not zero. -/
theorem C3_success_returns_nonzero_scalar {σ : Type} (t : Target) (lib : LibZmq σ)
    (nlhs nrhs : Int) (prhs : List mxArray) (s : Frame σ) (ht : t.supported)
    (h0 : nrhs = 0) (hp : (lib.ctxNew s.lib).1 ≠ NULL)
    (hw : (lib.ctxNew s.lib).1 < 256 ^ t.sizeofPtr) :
    ∃ s1 a, mexFunction t lib nlhs nrhs prhs s = Result.ok () s1
      ∧ s1.plhs 0 = some a
      ∧ (∀ i, i ≠ 0 → s1.plhs i = s.plhs i)
      ∧ a.m = 1 ∧ a.n = 1 ∧ a.isScalar = true
      ∧ a.flag = mxREAL
      ∧ a.classid.isUnsignedInteger = true
      ∧ a.data.length = a.numel * a.classid.elementSize
      ∧ a.uintAt t 0 ≠ 0 := by
  subst h0
  refine ⟨_, handleArray t (lib.ctxNew s.lib).1, mexFunction_success t lib nlhs prhs s ht hp,
    by simp [Frame.afterSuccess], ?_, rfl, rfl, rfl, rfl, handleClass_isUnsignedInteger t,
    ?_, ?_⟩
  · intro i hi
    simp [Function.update, hi, Frame.afterCtxNew, Frame.afterSuccess]
  · simp [handleArray, mxArray.numel, ptrBytes_length, handleClass_elementSize t ht]
  · rw [handleArray_uintAt t _ ht hw]
    exact hp

theorem C3_success_returns_nonzero_scalar_witness :
    target32.supported ∧ (0 : Int) = 0 ∧ (pageLib.ctxNew freshFrame.lib).1 ≠ NULL
    ∧ (pageLib.ctxNew freshFrame.lib).1 < 256 ^ target32.sizeofPtr
    ∧ ∃ s1 a, mexFunction target32 pageLib 1 0 [] freshFrame = Result.ok () s1
      ∧ s1.plhs 0 = some a
      ∧ (∀ i, i ≠ 0 → s1.plhs i = freshFrame.plhs i)
      ∧ a.m = 1 ∧ a.n = 1 ∧ a.isScalar = true
      ∧ a.flag = mxREAL
      ∧ a.classid.isUnsignedInteger = true
      ∧ a.data.length = a.numel * a.classid.elementSize
      ∧ a.uintAt target32 0 ≠ 0 :=
  ⟨by decide, rfl, by decide, by decide,
   C3_success_returns_nonzero_scalar target32 pageLib 1 0 [] freshFrame
     (by decide) rfl (by decide) (by decide)⟩

/-- C4: on a 32-bit or 64-bit target, whenever the call succeeds the element type of the
returned scalar is as wide as a pointer: `uint32` (4 bytes) when `sizeof(void*)` is 4 and
`uint64` (8 bytes) when it is 8. -/
theorem C4_element_width_is_pointer_width {σ : Type} (t : Target) (lib : LibZmq σ)
    (nlhs nrhs : Int) (prhs : List mxArray) (s s1 : Frame σ) (ht : t.supported)
    (hok : mexFunction t lib nlhs nrhs prhs s = Result.ok () s1) :
    ∃ a, s1.plhs 0 = some a
      ∧ a.classid.elementSize = t.sizeofPtr
      ∧ a.data.length = t.sizeofPtr
      ∧ (t.sizeofPtr = 4 → a.classid = mxUINT32_CLASS ∧ a.classid.elementSize = 4)
      ∧ (t.sizeofPtr = 8 → a.classid = mxUINT64_CLASS ∧ a.classid.elementSize = 8) := by
  obtain ⟨_, _, hs1⟩ := mexFunction_ok_inv t lib nlhs nrhs prhs s s1 ht hok
  refine ⟨handleArray t (lib.ctxNew s.lib).1, by simp [hs1, Frame.afterSuccess], handleClass_elementSize t ht,
    ptrBytes_length t _, ?_, ?_⟩
  · intro h4
    simp [handleArray, handleClass, h4, mxClassID.elementSize]
  · intro h8
    simp [handleArray, handleClass, h8, mxClassID.elementSize]

theorem C4_element_width_is_pointer_width_witness :
    target64.supported
    ∧ mexFunction target64 pageLib 1 0 [] freshFrame
        = Result.ok () (freshFrame.afterSuccess target64 pageLib)
    ∧ ∃ a, (freshFrame.afterSuccess target64 pageLib).plhs 0 = some a
      ∧ a.classid.elementSize = target64.sizeofPtr
      ∧ a.data.length = target64.sizeofPtr
      ∧ (target64.sizeofPtr = 4 → a.classid = mxUINT32_CLASS ∧ a.classid.elementSize = 4)
      ∧ (target64.sizeofPtr = 8 → a.classid = mxUINT64_CLASS ∧ a.classid.elementSize = 8) :=
  ⟨by decide, mexFunction_success target64 pageLib 1 [] freshFrame (by decide) (by decide),
   C4_element_width_is_pointer_width target64 pageLib 1 0 [] freshFrame _ (by decide)
     (mexFunction_success target64 pageLib 1 [] freshFrame (by decide) (by decide))⟩

/-- C5: on a 32-bit or 64-bit target, whenever the call succeeds with the address `p`
returned by the allocation primitive (an address of pointer width), the data buffer of
the output holds exactly the bytes of `p`; read as a pointer it is `p` again, and the
host reads the number `p`. -/
theorem C5_handle_round_trip {σ : Type} (t : Target) (lib : LibZmq σ)
    (nlhs nrhs : Int) (prhs : List mxArray) (s s1 : Frame σ) (ht : t.supported)
    (hok : mexFunction t lib nlhs nrhs prhs s = Result.ok () s1)
    (hw : (lib.ctxNew s.lib).1 < 256 ^ t.sizeofPtr) :
    ∃ a, s1.plhs 0 = some a
      ∧ a.data = ptrBytes t (lib.ctxNew s.lib).1
      ∧ a.voidPtrAt t 0 = (lib.ctxNew s.lib).1
      ∧ a.uintAt t 0 = (lib.ctxNew s.lib).1 := by
  obtain ⟨_, _, hs1⟩ := mexFunction_ok_inv t lib nlhs nrhs prhs s s1 ht hok
  exact ⟨handleArray t (lib.ctxNew s.lib).1, by simp [hs1, Frame.afterSuccess], rfl,
    handleArray_voidPtrAt t _ hw, handleArray_uintAt t _ ht hw⟩

theorem C5_handle_round_trip_witness :
    target32.supported
    ∧ mexFunction target32 pageLib 1 0 [] freshFrame
        = Result.ok () (freshFrame.afterSuccess target32 pageLib)
    ∧ (pageLib.ctxNew freshFrame.lib).1 < 256 ^ target32.sizeofPtr
    ∧ ∃ a, (freshFrame.afterSuccess target32 pageLib).plhs 0 = some a
      ∧ a.data = ptrBytes target32 (pageLib.ctxNew freshFrame.lib).1
      ∧ a.voidPtrAt target32 0 = (pageLib.ctxNew freshFrame.lib).1
      ∧ a.uintAt target32 0 = (pageLib.ctxNew freshFrame.lib).1 :=
  ⟨by decide, mexFunction_success target32 pageLib 1 [] freshFrame (by decide) (by decide),
   by decide,
   C5_handle_round_trip target32 pageLib 1 0 [] freshFrame _ (by decide)
     (mexFunction_success target32 pageLib 1 [] freshFrame (by decide) (by decide))
     (by decide)⟩

/-- C6: on a 32-bit or 64-bit target a call has exactly three outcomes, fixed by `nrhs`
and the address the allocation primitive returns: the usage error, the allocation
failure, or a return.  An error is raised if and only if `nrhs ≠ 0` or the allocation
returned `NULL`; the two identifiers differ, both messages are non-empty, and whenever
an error is raised the output slots are as they were before the call. -/
theorem C6_three_outcomes {σ : Type} (t : Target) (lib : LibZmq σ)
    (nlhs nrhs : Int) (prhs : List mxArray) (s : Frame σ) (ht : t.supported) :
    ((nrhs ≠ 0 ∧ mexFunction t lib nlhs nrhs prhs s
          = Result.raised "zmq:ctx_new:invalidArgs"
              "Error: No arguments are accepted by this function." s)
      ∨ (nrhs = 0 ∧ (lib.ctxNew s.lib).1 = NULL ∧ mexFunction t lib nlhs nrhs prhs s
          = Result.raised "zmq:ctx_new:contextInitFail"
              "Error: ZMQ context instantiation failed." (s.afterCtxNew lib))
      ∨ (nrhs = 0 ∧ (lib.ctxNew s.lib).1 ≠ NULL ∧ mexFunction t lib nlhs nrhs prhs s
          = Result.ok () (s.afterSuccess t lib)))
    ∧ ((∃ id msg s1, mexFunction t lib nlhs nrhs prhs s = Result.raised id msg s1)
        ↔ (nrhs ≠ 0 ∨ (lib.ctxNew s.lib).1 = NULL))
    ∧ invalidArgsId ≠ contextInitFailId
    ∧ invalidArgsMsg ≠ "" ∧ contextInitFailMsg ≠ ""
    ∧ (∀ id msg s1, mexFunction t lib nlhs nrhs prhs s = Result.raised id msg s1 →
        s1.plhs = s.plhs) := by
  have hid : invalidArgsId ≠ contextInitFailId := by decide
  have hm1 : invalidArgsMsg ≠ "" := by decide
  have hm2 : contextInitFailMsg ≠ "" := by decide
  by_cases h0 : nrhs = 0
  · subst h0
    by_cases hp : (lib.ctxNew s.lib).1 = NULL
    · have h := mexFunction_contextInitFail t lib nlhs prhs s hp
      refine ⟨Or.inr (Or.inl ⟨rfl, hp, h⟩), ⟨fun _ => Or.inr hp, fun _ => ⟨_, _, _, h⟩⟩,
        hid, hm1, hm2, ?_⟩
      intro id msg s1 hr
      rw [h] at hr
      injection hr with _ _ hs
      rw [← hs]
      rfl
    · have h := mexFunction_success t lib nlhs prhs s ht hp
      refine ⟨Or.inr (Or.inr ⟨rfl, hp, h⟩), ⟨?_, ?_⟩, hid, hm1, hm2, ?_⟩
      · rintro ⟨id, msg, s1, hr⟩
        rw [h] at hr
        exact absurd hr (by simp)
      · rintro (h1 | h1)
        · exact absurd rfl h1
        · exact absurd h1 hp
      · intro id msg s1 hr
        rw [h] at hr
        exact absurd hr (by simp)
  · have h := mexFunction_invalidArgs t lib nlhs nrhs prhs s h0
    refine ⟨Or.inl ⟨h0, h⟩, ⟨fun _ => Or.inl h0, fun _ => ⟨_, _, _, h⟩⟩, hid, hm1, hm2, ?_⟩
    intro id msg s1 hr
    rw [h] at hr
    injection hr with _ _ hs
    rw [← hs]

theorem C6_three_outcomes_witness :
    target64.supported
    ∧ mexFunction target64 pageLib 1 0 [] freshFrame
        = Result.ok () (freshFrame.afterSuccess target64 pageLib)
    ∧ ¬ (∃ id msg s1, mexFunction target64 pageLib 1 0 [] freshFrame
          = Result.raised id msg s1) := by
  have h := C6_three_outcomes target64 pageLib 1 0 [] freshFrame (by decide)
  refine ⟨by decide, ?_, ?_⟩
  · rcases h.1 with h1 | h1 | h1
    · exact absurd rfl h1.1
    · exact absurd h1.2.1 (by decide)
    · exact h1.2.2
  · intro hr
    rcases h.2.1.mp hr with h1 | h1
    · exact absurd rfl h1
    · exact absurd h1 (by decide)

/-- C7 as stated fails: with a library that returns the address `4096` on every call,
two successive calls (the second starting where the first left the library, with new
output slots) both succeed and both return the handle `4096`. -/
theorem C7_equal_handles_counterexample :
    mexFunction target64 otherLib 1 0 [] otherFrame
        = Result.ok () (otherFrame.afterSuccess target64 otherLib)
    ∧ mexFunction target64 otherLib 1 0 []
          ((otherFrame.afterSuccess target64 otherLib).nextCall (fun _ => none))
        = Result.ok () (((otherFrame.afterSuccess target64 otherLib).nextCall
            (fun _ => none)).afterSuccess target64 otherLib)
    ∧ (otherFrame.afterSuccess target64 otherLib).plhs 0 = some (handleArray target64 4096)
    ∧ (((otherFrame.afterSuccess target64 otherLib).nextCall
            (fun _ => none)).afterSuccess target64 otherLib).plhs 0
        = some (handleArray target64 4096)
    ∧ (handleArray target64 4096).uintAt target64 0 = 4096
    ∧ ¬ ((handleArray target64 4096).uintAt target64 0
          ≠ (handleArray target64 4096).uintAt target64 0) :=
  ⟨mexFunction_success target64 otherLib 1 [] otherFrame (by decide) (by decide),
   mexFunction_success target64 otherLib 1 [] _ (by decide) (by decide),
   by simp [Frame.afterSuccess, otherLib],
   by simp [Frame.afterSuccess, Frame.nextCall, otherLib],
   handleArray_uintAt target64 4096 (by decide) (by decide),
   fun h => h rfl⟩

/-- C7 (amended): on a 32-bit or 64-bit target, for any two successful calls (in
particular two successive ones) each returned handle is the number of the address the
allocation primitive returned in that same call, so nothing is cached or reused by the
binding; the two handles are numerically distinct exactly when the two allocated
addresses are distinct, the encoding of addresses of pointer width being injective. -/
theorem C7_handles_follow_allocations {σ : Type} (t : Target) (lib : LibZmq σ)
    (nlhs1 nrhs1 nlhs2 nrhs2 : Int) (prhs1 prhs2 : List mxArray)
    (s s1 r r1 : Frame σ) (ht : t.supported)
    (hok1 : mexFunction t lib nlhs1 nrhs1 prhs1 s = Result.ok () s1)
    (hok2 : mexFunction t lib nlhs2 nrhs2 prhs2 r = Result.ok () r1)
    (hw1 : (lib.ctxNew s.lib).1 < 256 ^ t.sizeofPtr)
    (hw2 : (lib.ctxNew r.lib).1 < 256 ^ t.sizeofPtr) :
    (∃ a1 a2, s1.plhs 0 = some a1 ∧ r1.plhs 0 = some a2
      ∧ a1.uintAt t 0 = (lib.ctxNew s.lib).1
      ∧ a2.uintAt t 0 = (lib.ctxNew r.lib).1
      ∧ (a1.uintAt t 0 ≠ a2.uintAt t 0 ↔ (lib.ctxNew s.lib).1 ≠ (lib.ctxNew r.lib).1))
    ∧ (∀ p q, p < 256 ^ t.sizeofPtr → q < 256 ^ t.sizeofPtr → p ≠ q →
        (handleArray t p).uintAt t 0 ≠ (handleArray t q).uintAt t 0) := by
  obtain ⟨_, _, hs1⟩ := mexFunction_ok_inv t lib nlhs1 nrhs1 prhs1 s s1 ht hok1
  obtain ⟨_, _, hr1⟩ := mexFunction_ok_inv t lib nlhs2 nrhs2 prhs2 r r1 ht hok2
  refine ⟨⟨handleArray t (lib.ctxNew s.lib).1, handleArray t (lib.ctxNew r.lib).1,
    by simp [hs1, Frame.afterSuccess], by simp [hr1, Frame.afterSuccess],
    handleArray_uintAt t _ ht hw1, handleArray_uintAt t _ ht hw2, ?_⟩, ?_⟩
  · rw [handleArray_uintAt t _ ht hw1, handleArray_uintAt t _ ht hw2]
  · intro p q hp hq hpq
    rw [handleArray_uintAt t _ ht hp, handleArray_uintAt t _ ht hq]
    exact hpq

theorem C7_handles_follow_allocations_witness :
    target64.supported
    ∧ mexFunction target64 pageLib 1 0 [] freshFrame
        = Result.ok () (freshFrame.afterSuccess target64 pageLib)
    ∧ mexFunction target64 pageLib 1 0 []
          ((freshFrame.afterSuccess target64 pageLib).nextCall (fun _ => none))
        = Result.ok () (((freshFrame.afterSuccess target64 pageLib).nextCall
            (fun _ => none)).afterSuccess target64 pageLib)
    ∧ (4096 : Nat) < 256 ^ target64.sizeofPtr ∧ (8192 : Nat) < 256 ^ target64.sizeofPtr
    ∧ ∃ a1 a2, (freshFrame.afterSuccess target64 pageLib).plhs 0 = some a1
      ∧ (((freshFrame.afterSuccess target64 pageLib).nextCall
            (fun _ => none)).afterSuccess target64 pageLib).plhs 0 = some a2
      ∧ a1.uintAt target64 0 = 4096
      ∧ a2.uintAt target64 0 = 8192
      ∧ (a1.uintAt target64 0 ≠ a2.uintAt target64 0 ↔ (4096 : Nat) ≠ 8192) :=
  ⟨by decide,
   mexFunction_success target64 pageLib 1 [] freshFrame (by decide) (by decide),
   mexFunction_success target64 pageLib 1 [] _ (by decide) (by decide),
   by decide, by decide,
   (C7_handles_follow_allocations target64 pageLib 1 0 1 0 [] []
     freshFrame _ ((freshFrame.afterSuccess target64 pageLib).nextCall (fun _ => none)) _
     (by decide)
     (mexFunction_success target64 pageLib 1 [] freshFrame (by decide) (by decide))
     (mexFunction_success target64 pageLib 1 [] _ (by decide) (by decide))
     (by decide) (by decide)).1⟩

/-- C8: on a 32-bit or 64-bit target, a call with `nrhs = 0` invokes the allocation
primitive exactly once and the termination primitive never (the log of library calls
grows by the single entry `zmq_ctx_new`, and the library is left in the state the
allocation produced); and the binding has no state of its own: two calls with the same
`nrhs` in which the allocator returns the same address have the same outcome, whatever
the library, its state, the log, `nlhs`, the arguments and the initial output slots. -/
theorem C8_one_allocation_no_binding_state {σ : Type} (t : Target) (lib : LibZmq σ)
    (nlhs nrhs : Int) (prhs : List mxArray) (s : Frame σ) (ht : t.supported) :
    (nrhs = 0 → ∃ s1, (mexFunction t lib nlhs nrhs prhs s).finalFrame = some s1
        ∧ s1.calls = s.calls ++ [LibCall.zmq_ctx_new]
        ∧ s1.calls.count LibCall.zmq_ctx_new = s.calls.count LibCall.zmq_ctx_new + 1
        ∧ (∀ c, s1.calls.count (LibCall.zmq_ctx_term c)
                  = s.calls.count (LibCall.zmq_ctx_term c))
        ∧ s1.lib = (lib.ctxNew s.lib).2)
    ∧ (∀ (σ2 : Type) (lib2 : LibZmq σ2) (nlhs2 : Int) (prhs2 : List mxArray) (s2 : Frame σ2),
        (lib2.ctxNew s2.lib).1 = (lib.ctxNew s.lib).1 →
        (mexFunction t lib2 nlhs2 nrhs prhs2 s2).outcome
          = (mexFunction t lib nlhs nrhs prhs s).outcome) := by
  constructor
  · intro h0
    subst h0
    by_cases hp : (lib.ctxNew s.lib).1 = NULL
    · rw [mexFunction_contextInitFail t lib nlhs prhs s hp]
      exact ⟨s.afterCtxNew lib, rfl, rfl, by simp [Frame.afterCtxNew],
        fun c => by simp [Frame.afterCtxNew], rfl⟩
    · rw [mexFunction_success t lib nlhs prhs s ht hp]
      exact ⟨s.afterSuccess t lib, rfl, rfl, by simp [Frame.afterSuccess, Frame.afterCtxNew],
        fun c => by simp [Frame.afterSuccess, Frame.afterCtxNew], rfl⟩
  · intro σ2 lib2 nlhs2 prhs2 s2 he
    by_cases h0 : nrhs = 0
    · subst h0
      by_cases hp : (lib.ctxNew s.lib).1 = NULL
      · rw [mexFunction_contextInitFail t lib nlhs prhs s hp,
          mexFunction_contextInitFail t lib2 nlhs2 prhs2 s2 (he.trans hp)]
        rfl
      · rw [mexFunction_success t lib nlhs prhs s ht hp,
          mexFunction_success t lib2 nlhs2 prhs2 s2 ht (by rw [he]; exact hp)]
        simp [Result.outcome, Frame.afterSuccess, he]
    · rw [mexFunction_invalidArgs t lib nlhs nrhs prhs s h0,
        mexFunction_invalidArgs t lib2 nlhs2 nrhs prhs2 s2 h0]
      rfl

theorem C8_one_allocation_no_binding_state_witness :
    target64.supported ∧ (0 : Int) = 0
    ∧ (∃ s1, (mexFunction target64 pageLib 1 0 [] freshFrame).finalFrame = some s1
        ∧ s1.calls = freshFrame.calls ++ [LibCall.zmq_ctx_new]
        ∧ s1.calls.count LibCall.zmq_ctx_new = freshFrame.calls.count LibCall.zmq_ctx_new + 1
        ∧ (∀ c, s1.calls.count (LibCall.zmq_ctx_term c)
                  = freshFrame.calls.count (LibCall.zmq_ctx_term c))
        ∧ s1.lib = (pageLib.ctxNew freshFrame.lib).2)
    ∧ (mexFunction target64 otherLib 3 0 [someArg]
          { lib := [7], calls := [LibCall.zmq_ctx_term 7], plhs := fun _ => some someArg }).outcome
        = (mexFunction target64 pageLib 1 0 [] freshFrame).outcome :=
  ⟨by decide, rfl,
   (C8_one_allocation_no_binding_state target64 pageLib 1 0 [] freshFrame (by decide)).1 rfl,
   (C8_one_allocation_no_binding_state target64 pageLib 1 0 [] freshFrame (by decide)).2
     (List Nat) otherLib 3 [someArg]
     { lib := [7], calls := [LibCall.zmq_ctx_term 7], plhs := fun _ => some someArg } rfl⟩

/-- C9: the argument-count check precedes the allocation: a call with `nrhs ≠ 0` raises
the usage error without invoking the allocation primitive (the log of library calls
and the state of the library are untouched, no output is assigned), also when the
allocator would have returned `NULL`; the error is never the allocation failure. -/
theorem C9_count_check_precedes_allocation {σ : Type} (t : Target) (lib : LibZmq σ)
    (nlhs nrhs : Int) (prhs : List mxArray) (s : Frame σ) (h : nrhs ≠ 0) :
    (∃ s1, mexFunction t lib nlhs nrhs prhs s
        = Result.raised "zmq:ctx_new:invalidArgs"
            "Error: No arguments are accepted by this function." s1
      ∧ s1.calls = s.calls ∧ s1.lib = s.lib ∧ s1.plhs = s.plhs)
    ∧ ((lib.ctxNew s.lib).1 = NULL →
        (mexFunction t lib nlhs nrhs prhs s).outcome
            = Outcome.error "zmq:ctx_new:invalidArgs"
                "Error: No arguments are accepted by this function."
        ∧ ∀ msg, (mexFunction t lib nlhs nrhs prhs s).outcome
            ≠ Outcome.error "zmq:ctx_new:contextInitFail" msg) := by
  have hr := mexFunction_invalidArgs t lib nlhs nrhs prhs s h
  refine ⟨⟨s, hr, rfl, rfl, rfl⟩, fun _ => ?_⟩
  rw [hr]
  refine ⟨rfl, fun msg he => ?_⟩
  simp only [Result.outcome, invalidArgsId] at he
  injection he with h1 _
  exact absurd h1 (by decide)

theorem C9_count_check_precedes_allocation_witness :
    (3 : Int) ≠ 0 ∧ (failingLib.ctxNew freshFrame.lib).1 = NULL
    ∧ (∃ s1, mexFunction target32 failingLib 0 3 [someArg, someArg, someArg] freshFrame
        = Result.raised "zmq:ctx_new:invalidArgs"
            "Error: No arguments are accepted by this function." s1
      ∧ s1.calls = freshFrame.calls ∧ s1.lib = freshFrame.lib ∧ s1.plhs = freshFrame.plhs)
    ∧ (mexFunction target32 failingLib 0 3 [someArg, someArg, someArg] freshFrame).outcome
        = Outcome.error "zmq:ctx_new:invalidArgs"
            "Error: No arguments are accepted by this function." :=
  ⟨by decide, rfl,
   (C9_count_check_precedes_allocation target32 failingLib 0 3 [someArg, someArg, someArg]
     freshFrame (by decide)).1,
   ((C9_count_check_precedes_allocation target32 failingLib 0 3 [someArg, someArg, someArg]
     freshFrame (by decide)).2 rfl).1⟩

/-- C10: the result of a call does not depend on `nlhs`: two calls that differ only in
`nlhs` end the same way, with the same error or the same frame.  In particular, on a
32-bit or 64-bit target a call with `nrhs = 0` and a non-null allocation writes the
handle to `plhs[0]` when `nlhs = 0`, and returns without an error when `nlhs > 1`. -/
theorem C10_result_independent_of_nlhs {σ : Type} (t : Target) (lib : LibZmq σ)
    (nlhs nlhs2 nrhs : Int) (prhs : List mxArray) (s : Frame σ) :
    mexFunction t lib nlhs nrhs prhs s = mexFunction t lib nlhs2 nrhs prhs s
    ∧ (t.supported → nrhs = 0 → (lib.ctxNew s.lib).1 ≠ NULL →
        (mexFunction t lib 0 nrhs prhs s = Result.ok () (s.afterSuccess t lib)
          ∧ (s.afterSuccess t lib).plhs 0 = some (handleArray t (lib.ctxNew s.lib).1))
        ∧ (1 < nlhs → mexFunction t lib nlhs nrhs prhs s
              = Result.ok () (s.afterSuccess t lib))) := by
  refine ⟨rfl, fun ht h0 hp => ?_⟩
  subst h0
  exact ⟨⟨mexFunction_success t lib 0 prhs s ht hp, by simp [Frame.afterSuccess]⟩,
    fun _ => mexFunction_success t lib nlhs prhs s ht hp⟩

theorem C10_result_independent_of_nlhs_witness :
    target64.supported ∧ (0 : Int) = 0 ∧ (pageLib.ctxNew freshFrame.lib).1 ≠ NULL
    ∧ (1 : Int) < 5
    ∧ mexFunction target64 pageLib 5 0 [] freshFrame
        = mexFunction target64 pageLib 0 0 [] freshFrame
    ∧ mexFunction target64 pageLib 0 0 [] freshFrame
        = Result.ok () (freshFrame.afterSuccess target64 pageLib)
    ∧ mexFunction target64 pageLib 5 0 [] freshFrame
        = Result.ok () (freshFrame.afterSuccess target64 pageLib) :=
  ⟨by decide, rfl, by decide, by decide,
   (C10_result_independent_of_nlhs target64 pageLib 5 0 0 [] freshFrame).1,
   ((C10_result_independent_of_nlhs target64 pageLib 5 0 0 [] freshFrame).2
      (by decide) rfl (by decide)).1.1,
   ((C10_result_independent_of_nlhs target64 pageLib 5 0 0 [] freshFrame).2
      (by decide) rfl (by decide)).2 (by decide)⟩

end ZmqCtxNew
